import Mathlib

/-!
Verification of the design-state engine of the LUX glove configurator
(src/GloveConfigurator.jsx) against its specification.

The store, texture synthesizer and the two binder effects are embedded as
pure Lean functions.  JavaScript objects whose key sets can grow at runtime
(the `parts` mapping, JSON trees) are embedded as association lists that
keep JS insertion-order semantics: updating an existing key rewrites it in
place, a fresh key is appended at the end, exactly like `{...obj, [k]: v}`.
JS values that may be absent (`undefined`) are embedded as `Option`.
-/

namespace Glove

/-- Association-list embedding of a JS object with string keys. -/
abbrev ObjMap (α : Type) := List (String × α)

/-- Property read `obj[k]`: first binding wins (our maps never hold
duplicate keys, mirroring JS objects). -/
def objGet {α : Type} : ObjMap α → String → Option α
  | [], _ => none
  | p :: t, k => if p.1 = k then some p.2 else objGet t k

/-- JS spread-update `{...m, [k]: v}`: rewrites an existing key in place,
otherwise appends the new key at the end. -/
def objSet {α : Type} : ObjMap α → String → α → ObjMap α
  | [], k, v => [(k, v)]
  | p :: t, k, v => if p.1 = k then (k, v) :: t else p :: objSet t k v

/-- `PART_KEYS` from src/GloveConfigurator.jsx:25-35. -/
def PART_KEYS : List String :=
  ["glove_backhand", "glove_palm", "glove_web", "glove_laces",
   "glove_welting", "glove_binding", "glove_wriststrap",
   "glove_logo_patch", "glove_stitching"]

/-- One entry of the `parts` mapping.  Fields are `Option` because the JS
code can build partial objects: `{...undefined, color}` (setPartColor on an
unknown key) yields an object holding only `color`. -/
structure PartVal where
  material : Option String
  color : Option String
  pattern : Option String
deriving DecidableEq

/-- `DEFAULT_PART_SETTINGS` from src/GloveConfigurator.jsx:37-41. -/
def DEFAULT_PART_SETTINGS : PartVal :=
  { material := some "full_grain", color := some "#b06b4a", pattern := some "none" }

/-- An embroidery payload `{text, font, size, color}` as produced by the
embroidery panel.  `size` is `Option` so that an absent size field can be
distinguished from a present one (`settings.size||48` treats both `0` and
`undefined` as absent). -/
structure EmbSpec where
  text : String
  font : String
  size : Option ℚ
  color : String
deriving DecidableEq

/-- The zustand store state created at src/GloveConfigurator.jsx:46-56.
`embroidery` holds the single field `targets`, flattened here. -/
structure StoreState where
  selectedPart : String
  parts : ObjMap PartVal
  targets : ObjMap (Option EmbSpec)
deriving DecidableEq

/-- Initial `parts`: `PART_KEYS.reduce(...)` at line 48. -/
def initialParts : ObjMap PartVal :=
  PART_KEYS.map (fun k => (k, DEFAULT_PART_SETTINGS))

/-- Initial `embroidery.targets` at line 49. -/
def initialTargets : ObjMap (Option EmbSpec) :=
  [("wriststrap", none), ("thumb", none), ("patch", none)]

/-- The store's initial state (`selectedPart: PART_KEYS[0]`). -/
def initialState : StoreState :=
  { selectedPart := PART_KEYS.headD ""
    parts := initialParts
    targets := initialTargets }

/-- The JS empty object spread base: `{...undefined, field}` starts from
an object with no fields at all. -/
def emptyPartVal : PartVal := { material := none, color := none, pattern := none }

/-- `setPartColor` (line 50):
`set(state => ({ parts: { ...state.parts, [part]: { ...state.parts[part], color } } }))`.
Note there is no validation and no failure path: on an unknown `part`,
`state.parts[part]` is `undefined` and the spread produces `{ color }`. -/
def setPartColor (part color : String) (s : StoreState) : StoreState :=
  let old := (objGet s.parts part).getD emptyPartVal
  { s with parts := objSet s.parts part { old with color := some color } }

/-- `setPartMaterial` (line 51), same shape as `setPartColor`. -/
def setPartMaterial (part material : String) (s : StoreState) : StoreState :=
  let old := (objGet s.parts part).getD emptyPartVal
  { s with parts := objSet s.parts part { old with material := some material } }

/-- `selectPart` (line 52): transient selection only. -/
def selectPart (part : String) (s : StoreState) : StoreState :=
  { s with selectedPart := part }

/-- `resetDesign` (line 53): rebuilds `parts` and `embroidery` from the
defaults; zustand `set` merges, so `selectedPart` is untouched. -/
def resetDesign (s : StoreState) : StoreState :=
  { s with parts := initialParts, targets := initialTargets }

/-- `setEmbroideryTarget` (line 54): spread-update of `embroidery.targets`. -/
def setEmbroideryTarget (targetKey : String) (payload : Option EmbSpec)
    (s : StoreState) : StoreState :=
  { s with targets := objSet s.targets targetKey payload }

/-- JSON-compatible trees (the transport format of §6). -/
inductive Json where
  | null : Json
  | str (s : String) : Json
  | num (q : ℚ) : Json
  | obj (fields : List (String × Json)) : Json

/-- Field read on an object tree. -/
def Json.getField : Json → String → Option Json
  | .obj fields, k => objGet fields k
  | _, _ => none

/-- Top-level keys of an object tree. -/
def Json.topKeys : Json → List String
  | .obj fields => fields.map Prod.fst
  | _ => []

/-- Extract a string leaf. -/
def jStr : Option Json → Option String
  | some (.str s) => some s
  | _ => none

/-- Serialize one `parts` entry.  Only present fields appear, in JS
insertion order material, color, pattern (JSON.stringify drops
`undefined`). -/
def partValToJson (v : PartVal) : Json :=
  Json.obj ((v.material.map (fun m => ("material", Json.str m))).toList
    ++ (v.color.map (fun c => ("color", Json.str c))).toList
    ++ (v.pattern.map (fun p => ("pattern", Json.str p))).toList)

/-- Serialize an embroidery payload `{text, font, size, color}`. -/
def embSpecToJson (e : EmbSpec) : Json :=
  Json.obj ([("text", Json.str e.text), ("font", Json.str e.font)]
    ++ (e.size.map (fun q => ("size", Json.num q))).toList
    ++ [("color", Json.str e.color)])

/-- Serialize one embroidery target (null when unset). -/
def targetToJson : Option EmbSpec → Json
  | none => Json.null
  | some e => embSpecToJson e

/-- The tree `{ parts: ..., embroidery: { targets: ... }, createdAt: now }`
built by `getDesignJSON` (line 55). -/
def designToJson (parts : ObjMap PartVal) (targets : ObjMap (Option EmbSpec))
    (now : String) : Json :=
  Json.obj
    [("parts", Json.obj (parts.map (fun p => (p.1, partValToJson p.2)))),
     ("embroidery", Json.obj
        [("targets", Json.obj (targets.map (fun p => (p.1, targetToJson p.2))))]),
     ("createdAt", Json.str now)]

/-- `getDesignJSON` (line 55): reads the state through `get()` and never
calls `set`, so the store state is returned unchanged next to the tree.
`now` stands for `new Date().toISOString()`. -/
def getDesignJSON (s : StoreState) (now : String) : StoreState × Json :=
  (s, designToJson s.parts s.targets now)

/-- The member `state.loadDesignJSON` read by the component at line 300.
The store literal at lines 46-56 defines no such member, so the read
yields `undefined`; embedded as `none`. -/
def loadDesignJSON : Option (Json → StoreState → StoreState) := none

/-- Observable outcome of `loadFromLocal` (line 313). -/
inductive LoadOutcome where
  | noSavedDesign : LoadOutcome
  | failedToParse : LoadOutcome
  | loaded : LoadOutcome
deriving DecidableEq

/-- `loadFromLocal` (line 313): when storage is empty it alerts
"No saved design found"; otherwise it calls `loadDesignJSON(JSON.parse(raw))`
inside try/catch.  Because `loadDesignJSON` is `undefined`, the call throws
`TypeError`, the catch fires, and the alert "Failed to parse" is shown.
`storage` is the already-parsed content of the persistence slot. -/
def loadFromLocal (storage : Option Json) (s : StoreState) : StoreState × LoadOutcome :=
  match storage with
  | none => (s, .noSavedDesign)
  | some j =>
    match loadDesignJSON with
    | none => (s, .failedToParse)
    | some f => (f j s, .loaded)

/-- A canvas font assignment `ctx.font = "<px>px <family>"`, embedded in
structured form: `px` is the number read back by `parseInt(font, 10)`. -/
structure CanvasFont where
  px : ℚ
  family : String
deriving DecidableEq

/-- Dimensions part of `createTextTexture` (lines 61-87).  `measure` is the
host's `ctx.measureText` for the active font — an oracle parameter: fixed
on a given platform, and the only host-dependent input.
`width  = Math.max(256, Math.ceil((measure.width + padding*2) * scale))`,
`height = Math.max(128, Math.ceil((parseInt(font,10) + padding*2) * scale))`. -/
def createTextTextureDims (measure : CanvasFont → String → ℚ)
    (text : String) (font : CanvasFont) (padding scale : ℚ) : ℕ × ℕ :=
  (max 256 (Int.toNat ⌈(measure font text + padding * 2) * scale⌉),
   max 128 (Int.toNat ⌈(font.px + padding * 2) * scale⌉))

/-- Effective font pixel size used by the embroidery effect (line 137):
`Math.max(24, settings.size || 48)` — `size || 48` is 48 when the size is
absent or `0` (JS falsy). -/
def effFontPx (size : Option ℚ) : ℚ :=
  max 24 (match size with
          | none => 48
          | some q => if q = 0 then 48 else q)

/-- The dimensions of the texture synthesized for one embroidery payload by
the effect at line 137: `createTextTexture({ text: settings.text||'',
font: ${Math.max(24, settings.size||48)}px ${settings.font||'Montserrat'},
color: settings.color||'#fff', padding: 20, scale: 4 })`. -/
def embSetDims (measure : CanvasFont → String → ℚ) (sp : EmbSpec) : ℕ × ℕ :=
  createTextTextureDims measure sp.text
    { px := effFontPx sp.size
      family := if sp.font = "" then "Montserrat" else sp.font }
    20 4

/-- Renderable material of one mesh: the fields the two binder effects
write.  `map` holds the id of the bound texture resource, if any. -/
structure MatState where
  color : String
  roughness : ℚ
  metalness : ℚ
  map : Option ℕ
  transparent : Bool
  alphaTest : ℚ
deriving DecidableEq

/-- Render-side state: per-mesh materials plus a texture-resource ledger.
`textures` records every synthesized resource `(id, width, height)`;
`disposed` records every id whose GPU resource was explicitly released.
The source contains no `dispose()` call, so no operation ever appends to
`disposed`. -/
structure RenderState where
  meshes : ObjMap MatState
  nextTex : ℕ
  textures : List (ℕ × ℕ × ℕ)
  disposed : List ℕ
deriving DecidableEq

/-- A fresh `meshStandardMaterial` (THREE defaults; the JSX overrides some
fields per mesh, but every claim-relevant field is overwritten by the
binder passes before being observed). -/
def initMat : MatState :=
  { color := "#ffffff", roughness := 1, metalness := 0
    map := none, transparent := false, alphaTest := 0 }

/-- Render state before any binder pass: one mesh per static part key. -/
def rs0 : RenderState :=
  { meshes := PART_KEYS.map (fun k => (k, initMat))
    nextTex := 0, textures := [], disposed := [] }

/-- The fixed embroidery-target → mesh lookup (line 128). -/
def EMB_MAP : ObjMap String :=
  [("wriststrap", "glove_wriststrap"), ("patch", "glove_logo_patch"),
   ("thumb", "glove_backhand")]

/-- One iteration of the embroidery effect (lines 129-141) for the entry
`(t, settings)`.  Unset: `ref.material.map = null` — the texture binding
is cleared but nothing is disposed.  Set: synthesize a fresh texture and
replace the mesh's material with a clone carrying it (`transparent = true`,
`alphaTest = 0.5`); the prior texture is not disposed either. -/
def embStep (measure : CanvasFont → String → ℚ) (rs : RenderState)
    (t : String) (settings : Option EmbSpec) : RenderState :=
  match objGet EMB_MAP t with
  | none => rs
  | some meshKey =>
    match objGet rs.meshes meshKey with
    | none => rs
    | some mat =>
      match settings with
      | none =>
        let cleared := { mat with map := none }
        { rs with meshes := objSet rs.meshes meshKey cleared }
      | some sp =>
        let dims := embSetDims measure sp
        let textured := { mat with map := some rs.nextTex, transparent := true,
                                   alphaTest := (1 : ℚ)/2 }
        { rs with
            nextTex := rs.nextTex + 1
            textures := rs.textures ++ [(rs.nextTex, dims.1, dims.2)]
            meshes := objSet rs.meshes meshKey textured }

/-- The whole embroidery effect: `Object.entries(embroideryTargets)`
processed in insertion order. -/
def embroideryPass (measure : CanvasFont → String → ℚ)
    (targets : ObjMap (Option EmbSpec)) (rs : RenderState) : RenderState :=
  targets.foldl (fun acc p => embStep measure acc p.1 p.2) rs

/-- The material → (roughness, metalness) table applied by the region
effect (lines 115-121): suede ↦ (0.9, 0), full_grain ↦ (0.5, 0),
anything else ↦ (0.6, 0.05). -/
def materialShading (m : Option String) : ℚ × ℚ :=
  if m = some "suede" then (9/10, 0)
  else if m = some "full_grain" then (1/2, 0)
  else (3/5, 1/20)

/-- Base color applied by the region effect (line 113):
`appliedParts[key]?.color || '#ffffff'`. -/
def appliedColor (pv : Option PartVal) : String :=
  match pv.bind PartVal.color with
  | some c => if c = "" then "#ffffff" else c
  | none => "#ffffff"

/-- One iteration of the region effect (lines 108-124): skip when the mesh
is unavailable, otherwise write color/roughness/metalness in place. -/
def regionStep (parts : ObjMap PartVal) (rs : RenderState) (k : String) :
    RenderState :=
  match objGet rs.meshes k with
  | none => rs
  | some mat =>
    let pv := objGet parts k
    let sh := materialShading (pv.bind PartVal.material)
    let shaded := { mat with color := appliedColor pv, roughness := sh.1,
                             metalness := sh.2 }
    { rs with meshes := objSet rs.meshes k shaded }

/-- The whole region effect: `PART_KEYS.forEach(...)`. -/
def regionBinderPass (parts : ObjMap PartVal) (rs : RenderState) : RenderState :=
  PART_KEYS.foldl (regionStep parts) rs

/-- Enumerated material domain (the material selector, lines 350-354). -/
def MATERIALS : List String := ["full_grain", "suede", "synthetic"]

/-- Enumerated font domain (the font selector, lines 259-265). -/
def FONTS : List String :=
  ["Montserrat", "Roboto", "Arial", "Times New Roman", "Playfair Display"]

/-- Embroidery target keys (store line 49 / target selector). -/
def TARGET_KEYS : List String := ["wriststrap", "thumb", "patch"]

/-- The serializable Design Model: region appearances plus embroidery
targets, without the transient selection. -/
structure DesignModel where
  parts : ObjMap PartVal
  targets : ObjMap (Option EmbSpec)
deriving DecidableEq

/-- `toTransport`: the only serializer in the source is `getDesignJSON`
(line 55); it is that projection applied to a Design Model. -/
def toTransport (m : DesignModel) (now : String) : Json :=
  designToJson m.parts m.targets now

/-- Error taxonomy of §7 relevant to import. -/
inductive DesignError where
  | malformedDesign : DesignError
deriving DecidableEq

/-- Expect a string leaf. -/
def parseStr : Option Json → Except DesignError String
  | some (.str s) => .ok s
  | _ => .error .malformedDesign

/-- Expect a string leaf inside an enumerated domain. -/
def parseEnum (dom : List String) (j : Option Json) : Except DesignError String := do
  let s ← parseStr j
  if s ∈ dom then pure s else .error .malformedDesign

/-- Expect a positive number (embroidery size). -/
def parseSize : Option Json → Except DesignError ℚ
  | some (.num q) => if 0 < q then .ok q else .error .malformedDesign
  | _ => .error .malformedDesign

/-- Modelled from the spec: one region appearance of the transport format
(§6, §4.5) — `material` in the enumerated set, `color` and `pattern`
opaque strings; unknown extra keys are ignored.  The import direction is
absent from the source (the store defines no `loadDesignJSON`). -/
def parseRegion (j : Json) : Except DesignError PartVal := do
  let m ← parseEnum MATERIALS (j.getField "material")
  let c ← parseStr (j.getField "color")
  let p ← parseStr (j.getField "pattern")
  pure { material := some m, color := some c, pattern := some p }

/-- Modelled from the spec: one embroidery target of the transport format
(§6) — `null` for unset, else `{text, font, size, color}` with `font` in
the enumerated list and `size` a positive number. -/
def parseTarget (j : Json) : Except DesignError (Option EmbSpec) :=
  match j with
  | .null => .ok none
  | .obj _ => do
    let t ← parseStr (j.getField "text")
    let f ← parseEnum FONTS (j.getField "font")
    let sz ← parseSize (j.getField "size")
    let c ← parseStr (j.getField "color")
    pure (some { text := t, font := f, size := some sz, color := c })
  | _ => .error .malformedDesign

/-- One required region entry: missing key ⇒ `MalformedDesign`. -/
def parseRegionEntry (regions : Json) (k : String) :
    Except DesignError (String × PartVal) :=
  match regions.getField k with
  | some rj => (parseRegion rj).map (fun v => (k, v))
  | none => .error .malformedDesign

/-- One required target entry: missing key ⇒ `MalformedDesign`. -/
def parseTargetEntry (targetsJ : Json) (k : String) :
    Except DesignError (String × Option EmbSpec) :=
  match targetsJ.getField k with
  | some tj => (parseTarget tj).map (fun v => (k, v))
  | none => .error .malformedDesign

/-- Modelled from the spec: `fromTransport` / the validation of
`importDesign` (§4.5, §4.1, §6, §7) — the repository's store has no import
operation, so this direction is reconstructed from the spec's words:
every static key must be present under `regions` and
`embroidery.targets`, every enumerated value in-domain; unknown extra keys
are ignored (forward-compatible). -/
def fromTransport (j : Json) : Except DesignError DesignModel :=
  match j.getField "regions",
        (j.getField "embroidery").bind (fun e => e.getField "targets") with
  | some regions, some targetsJ => do
    let parts ← PART_KEYS.mapM (parseRegionEntry regions)
    let targets ← TARGET_KEYS.mapM (parseTargetEntry targetsJ)
    pure { parts := parts, targets := targets }
  | _, _ => .error .malformedDesign

/-- A decidable validity check for one region appearance as it occurs in a
live model: all three fields present, material in-domain. -/
def validPartB (v : PartVal) : Bool :=
  match v.material, v.color, v.pattern with
  | some m, some _, some _ => decide (m ∈ MATERIALS)
  | _, _, _ => false

/-- A decidable validity check for one embroidery target value. -/
def validTargetB : Option EmbSpec → Bool
  | none => true
  | some e =>
    decide (e.font ∈ FONTS) &&
      (match e.size with
       | some q => decide (0 < q)
       | none => false)

/-- A valid Design Model: exactly the static keys, in store order, and
every value in-domain. -/
def validModelB (m : DesignModel) : Bool :=
  decide (m.parts.map Prod.fst = PART_KEYS) && m.parts.all (fun p => validPartB p.2)
    && decide (m.targets.map Prod.fst = TARGET_KEYS)
    && m.targets.all (fun p => validTargetB p.2)

/-- Rename the top-level key `parts` of a transport tree to `regions` —
the one-key relabelling that separates `getDesignJSON`'s output from the
§6 transport format. -/
def renameTop (j : Json) : Json :=
  match j with
  | .obj fields =>
    .obj (fields.map (fun p => (if p.1 = "parts" then "regions" else p.1, p.2)))
  | _ => j

/-- The default live Design Model (the store's initial, and post-reset,
model). -/
def defModel : DesignModel := { parts := initialParts, targets := initialTargets }

/-- The scenario payload of §8:
`{text:"LUX", font:"Arial", size:40, color:"#fff"}`. -/
def c3Spec : EmbSpec :=
  { text := "LUX", font := "Arial", size := some 40, color := "#fff" }

/-- A fixed host text-measurement oracle for the concrete scenario runs. -/
def c3Measure : CanvasFont → String → ℚ := fun _ _ => 100

/-- Store state after `setEmbroideryTarget("patch", {text:"LUX", ...})`. -/
def c3S1 : StoreState := setEmbroideryTarget "patch" (some c3Spec) initialState

/-- Render state after the embroidery effect runs on `c3S1`. -/
def c3RsA : RenderState := embroideryPass c3Measure c3S1.targets rs0

/-- Store state after the subsequent `setEmbroideryTarget("patch", null)`. -/
def c3S2 : StoreState := setEmbroideryTarget "patch" none c3S1

/-- Render state after the embroidery effect runs on the cleared model. -/
def c3RsB : RenderState := embroideryPass c3Measure c3S2.targets c3RsA

/-- Shading result of one region-effect iteration on a present mesh. -/
def shadedMat (parts : ObjMap PartVal) (k : String) (mat : MatState) : MatState :=
  { mat with
      color := appliedColor (objGet parts k)
      roughness := (materialShading ((objGet parts k).bind PartVal.material)).1
      metalness := (materialShading ((objGet parts k).bind PartVal.material)).2 }

theorem objGet_map_snd {α β : Type} (f : α → β) (m : List (String × α)) (k : String) :
    objGet (m.map (fun p => (p.1, f p.2))) k = (objGet m k).map f := by
  induction m with
  | nil => rfl
  | cons p t ih =>
    by_cases h : p.1 = k
    · simp [objGet, h]
    · simp [objGet, h, ih]

theorem objGet_objSet_self {α : Type} (m : ObjMap α) (k : String) (v : α) :
    objGet (objSet m k v) k = some v := by
  induction m with
  | nil => simp [objSet, objGet]
  | cons p t ih =>
    by_cases h : p.1 = k
    · simp [objSet, objGet, h]
    · simp [objSet, objGet, h, ih]

theorem objGet_objSet_ne {α : Type} (m : ObjMap α) (k k' : String) (v : α)
    (h : k' ≠ k) : objGet (objSet m k v) k' = objGet m k' := by
  induction m with
  | nil =>
    have : ¬(k = k') := fun he => h he.symm
    simp [objSet, objGet, this]
  | cons p t ih =>
    by_cases hp : p.1 = k
    · have : ¬(k = k') := fun he => h he.symm
      simp [objSet, objGet, hp, this, ih]
    · simp only [objSet, hp, if_neg, objGet]
      by_cases hk' : p.1 = k'
      · simp [hk']
      · simp [hk', ih]

theorem objSet_absent {α : Type} (m : ObjMap α) (k : String) (v : α)
    (h : objGet m k = none) : objSet m k v = m ++ [(k, v)] := by
  induction m with
  | nil => rfl
  | cons p t ih =>
    simp only [objGet] at h
    by_cases hp : p.1 = k
    · simp [hp] at h
    · simp only [hp, if_neg, if_false] at h
      simp [objSet, hp, ih h]

theorem regionStep_objGet_ne (parts : ObjMap PartVal) (rs : RenderState)
    (k k' : String) (h : k' ≠ k) :
    objGet (regionStep parts rs k).meshes k' = objGet rs.meshes k' := by
  unfold regionStep
  cases hm : objGet rs.meshes k with
  | none => rfl
  | some mat => simp [objGet_objSet_ne _ _ _ _ h]

theorem regionStep_objGet_self (parts : ObjMap PartVal) (rs : RenderState)
    (k : String) (mat : MatState) (h : objGet rs.meshes k = some mat) :
    objGet (regionStep parts rs k).meshes k = some (shadedMat parts k mat) := by
  unfold regionStep
  simp [h, objGet_objSet_self, shadedMat]

theorem regionFold_not_mem (parts : ObjMap PartVal) :
    ∀ (ks : List String) (rs : RenderState) (k : String), k ∉ ks →
      objGet (ks.foldl (regionStep parts) rs).meshes k = objGet rs.meshes k := by
  intro ks
  induction ks with
  | nil => intro rs k _; rfl
  | cons a t ih =>
    intro rs k h
    simp only [List.mem_cons, not_or] at h
    simp only [List.foldl_cons]
    rw [ih _ _ h.2]
    exact regionStep_objGet_ne parts rs a k h.1

theorem regionFold_mem (parts : ObjMap PartVal) :
    ∀ (ks : List String) (rs : RenderState) (k : String) (mat : MatState),
      ks.Nodup → k ∈ ks → objGet rs.meshes k = some mat →
      objGet (ks.foldl (regionStep parts) rs).meshes k
        = some (shadedMat parts k mat) := by
  intro ks
  induction ks with
  | nil => intro _ k _ _ hmem _; cases hmem
  | cons a t ih =>
    intro rs k mat hnd hmem hpresent
    simp only [List.foldl_cons]
    rcases List.mem_cons.mp hmem with rfl | hmt
    · rw [regionFold_not_mem parts t _ k (List.nodup_cons.mp hnd).1]
      exact regionStep_objGet_self parts rs k mat hpresent
    · have hka : k ≠ a := by
        rintro rfl
        exact (List.nodup_cons.mp hnd).1 hmt
      exact ih _ _ _ (List.nodup_cons.mp hnd).2 hmt
        (by rw [regionStep_objGet_ne parts rs a k hka]; exact hpresent)

theorem embStep_set_textures (measure : CanvasFont → String → ℚ)
    (rs : RenderState) (t : String) (sp : EmbSpec) (mk : String) (mat : MatState)
    (h1 : objGet EMB_MAP t = some mk) (h2 : objGet rs.meshes mk = some mat) :
    (embStep measure rs t (some sp)).textures
      = rs.textures
          ++ [(rs.nextTex, (embSetDims measure sp).1, (embSetDims measure sp).2)] := by
  unfold embStep
  simp [h1, h2]

theorem parseRegion_ok (v : PartVal) (h : validPartB v = true) :
    parseRegion (partValToJson v) = .ok v := by
  rcases v with ⟨om, oc, op⟩
  cases om with
  | none => simp [validPartB] at h
  | some mm =>
    cases oc with
    | none => simp [validPartB] at h
    | some c =>
      cases op with
      | none => simp [validPartB] at h
      | some p =>
        simp only [validPartB, decide_eq_true_eq] at h
        simp [parseRegion, partValToJson, parseEnum, parseStr, Json.getField,
          objGet, h, Bind.bind, Except.bind, Pure.pure, Except.pure]

theorem parseTarget_ok (tv : Option EmbSpec) (h : validTargetB tv = true) :
    parseTarget (targetToJson tv) = .ok tv := by
  cases tv with
  | none => rfl
  | some e =>
    rcases e with ⟨t, f, sz, c⟩
    cases sz with
    | none => simp [validTargetB] at h
    | some q =>
      simp only [validTargetB, Bool.and_eq_true, decide_eq_true_eq] at h
      simp [targetToJson, embSpecToJson, parseTarget, parseStr, parseEnum,
        parseSize, Json.getField, objGet, h.1, h.2, Bind.bind, Except.bind,
        Pure.pure, Except.pure]

theorem mapM_region_entries :
    ∀ (parts : ObjMap PartVal) (J : Json),
      (parts.map Prod.fst).Nodup →
      (∀ k, k ∈ parts.map Prod.fst →
        J.getField k = (objGet parts k).map partValToJson) →
      (∀ p ∈ parts, validPartB p.2 = true) →
      (parts.map Prod.fst).mapM (parseRegionEntry J) = Except.ok parts := by
  intro parts
  induction parts with
  | nil => intro J _ _ _; rfl
  | cons p t ih =>
    intro J hnd hf hv
    simp only [List.map_cons] at hnd ⊢
    have hndc := List.nodup_cons.mp hnd
    simp only [List.mapM_cons]
    have hp : J.getField p.1 = some (partValToJson p.2) := by
      rw [hf p.1 (by simp)]
      simp [objGet]
    have hr : parseRegionEntry J p.1 = .ok (p.1, p.2) := by
      simp [parseRegionEntry, hp, parseRegion_ok p.2 (hv p (by simp)), Except.map]
    have ht : (t.map Prod.fst).mapM (parseRegionEntry J) = Except.ok t := by
      apply ih J hndc.2
      · intro k hk
        have hkp : ¬(p.1 = k) := by
          intro he
          exact hndc.1 (he ▸ hk)
        rw [hf k (by simp [hk])]
        simp [objGet, hkp]
      · intro q hq
        exact hv q (List.mem_cons_of_mem _ hq)
    rw [hr, ht]
    rfl

theorem mapM_target_entries :
    ∀ (targets : ObjMap (Option EmbSpec)) (J : Json),
      (targets.map Prod.fst).Nodup →
      (∀ k, k ∈ targets.map Prod.fst →
        J.getField k = (objGet targets k).map targetToJson) →
      (∀ p ∈ targets, validTargetB p.2 = true) →
      (targets.map Prod.fst).mapM (parseTargetEntry J) = Except.ok targets := by
  intro targets
  induction targets with
  | nil => intro J _ _ _; rfl
  | cons p t ih =>
    intro J hnd hf hv
    simp only [List.map_cons] at hnd ⊢
    have hndc := List.nodup_cons.mp hnd
    simp only [List.mapM_cons]
    have hp : J.getField p.1 = some (targetToJson p.2) := by
      rw [hf p.1 (by simp)]
      simp [objGet]
    have hr : parseTargetEntry J p.1 = .ok (p.1, p.2) := by
      simp [parseTargetEntry, hp, parseTarget_ok p.2 (hv p (by simp)), Except.map]
    have ht : (t.map Prod.fst).mapM (parseTargetEntry J) = Except.ok t := by
      apply ih J hndc.2
      · intro k hk
        have hkp : ¬(p.1 = k) := by
          intro he
          exact hndc.1 (he ▸ hk)
        rw [hf k (by simp [hk])]
        simp [objGet, hkp]
      · intro q hq
        exact hv q (List.mem_cons_of_mem _ hq)
    rw [hr, ht]
    rfl

/-- A fixed host text-measurement oracle used for concrete instantiations. -/
def constMeasure100 : CanvasFont → String → ℚ := fun _ _ => 100

/-- C1: the spec requires `importDesign` to reject invalid snapshots with
`MalformedDesign` and to atomically install valid ones.  The code cannot do
either: the store (lines 46-56) defines no `loadDesignJSON`, so
`loadFromLocal` (line 313) calls `undefined`, the `TypeError` is caught,
and EVERY import — malformed or perfectly valid, such as the export of the
default model — fails with the generic "Failed to parse" alert, leaving
the live model unchanged.  Valid snapshots are never installed. -/
theorem c1_import_never_succeeds :
    (∀ (j : Json) (s : StoreState),
      loadFromLocal (some j) s = (s, LoadOutcome.failedToParse))
    ∧ loadFromLocal
        (some (getDesignJSON initialState "2024-01-01T00:00:00.000Z").2)
        initialState
        = (initialState, LoadOutcome.failedToParse) :=
  ⟨fun _ _ => rfl, rfl⟩

/-- C2 counterexample: `setRegionColor` on the unknown region
"glove_zipper" is neither a no-op nor a failure — the store mutation has
no failure path at all, and it APPENDS a new partial entry `{color}` to
the regions mapping (9 entries grow to 10), violating the claim's
"in no case does it add a new entry". -/
theorem c2_counterexample :
    (setPartColor "glove_zipper" "#000000" initialState).parts.length = 10
    ∧ initialState.parts.length = 9
    ∧ objGet (setPartColor "glove_zipper" "#000000" initialState).parts
        "glove_zipper"
        = some { material := none, color := some "#000000", pattern := none } := by
  decide

/-- C2 amended: for a region key not in the mapping, setRegionColor(r, c)
does not fail and is not a no-op: it appends a new entry holding only the
color (no material, no pattern); every existing region's appearance, the
embroidery targets and the selection are unchanged. -/
theorem c2_invalid_region_appends (r c : String) (s : StoreState)
    (h : objGet s.parts r = none) :
    setPartColor r c s
      = { s with parts := s.parts
          ++ [(r, { material := none, color := some c, pattern := none })] } := by
  simp only [setPartColor, h, Option.getD_none, emptyPartVal]
  rw [objSet_absent _ _ _ h]

/-- C2 amended, witnessed at the concrete unknown key "glove_zipper". -/
theorem c2_invalid_region_appends_witness :
    setPartColor "glove_zipper" "#000000" initialState
      = { initialState with parts := initialState.parts
          ++ [("glove_zipper",
               { material := none, color := some "#000000", pattern := none })] } :=
  c2_invalid_region_appends "glove_zipper" "#000000" initialState (by decide)

/-- C3 counterexample: after `setEmbroideryTarget("patch", {text:"LUX",...})`
then `setEmbroideryTarget("patch", null)` the store state is cleared as
claimed, and a texture resource (id 0) was synthesized by the first
effect pass — but the disposal ledger after the clearing pass is empty:
the clear only sets `material.map = null` and never disposes the
resource, so "the texture resource ... has been released (disposed) by
the clear" is false. -/
theorem c3_counterexample :
    objGet c3S2.targets "patch" = some none
    ∧ c3RsA.textures.map Prod.fst = [0]
    ∧ c3RsB.disposed = ([] : List ℕ) :=
  ⟨by decide, by decide, rfl⟩

/-- C3 amended: after the set/clear sequence the final state has
`embroidery.targets.patch == null` and the patch Region's surface is
untextured (its material's texture binding is null), but the synthesized
texture resource is NOT disposed — the source never releases texture
resources (the leak risk §9 records); clearing is idempotent when the
region is already clear, at both the store and the render level. -/
theorem c3_clear_unbinds_without_dispose :
    objGet c3S2.targets "patch" = some none
    ∧ (objGet c3RsB.meshes "glove_logo_patch").map MatState.map = some none
    ∧ c3RsB.textures.map Prod.fst = [0]
    ∧ c3RsB.disposed = ([] : List ℕ)
    ∧ setEmbroideryTarget "patch" none c3S2 = c3S2
    ∧ embroideryPass c3Measure c3S2.targets c3RsB = c3RsB :=
  ⟨by decide, by decide, by decide, rfl, by decide, rfl⟩

/-- C4 counterexample: the exported snapshot's top-level keys are
`parts`, `embroidery`, `createdAt` — the claimed key "regions" does not
occur among them (the source stores the regions mapping under `parts`). -/
theorem c4_counterexample :
    ((getDesignJSON initialState "2024-01-01T00:00:00.000Z").2).topKeys
        = ["parts", "embroidery", "createdAt"]
    ∧ (((getDesignJSON initialState "2024-01-01T00:00:00.000Z").2).topKeys.contains
        "regions") = false := by
  decide

/-- C4 amended: `exportDesign` returns a tree whose top-level keys are
exactly `parts`, `embroidery` and `createdAt` (the regions mapping lives
under `parts`), and calling it does not mutate the live Design Model. -/
theorem c4_export_shape (s : StoreState) (now : String) :
    ((getDesignJSON s now).2).topKeys = ["parts", "embroidery", "createdAt"]
    ∧ (getDesignJSON s now).1 = s :=
  ⟨rfl, rfl⟩

/-- C5 counterexample: the round-trip fails on the code as it stands even
for the default live model — `toTransport` (= `getDesignJSON`) writes the
regions mapping under the top-level key `parts`, while the §6 transport
format consumed by `fromTransport` requires `regions`, so validation
stops with `MalformedDesign` instead of reproducing the model. -/
theorem c5_counterexample :
    fromTransport (toTransport defModel "2024-01-01T00:00:00.000Z")
      = Except.error DesignError.malformedDesign := rfl

/-- C5 amended: once the serializer's top-level `parts` key is presented
as the `regions` key the spec's format requires, the round-trip holds:
for every valid Design Model (all static keys in store order, any mix of
unset and set targets with in-domain values), `fromTransport` applied to
the relabelled `toTransport` output reconstructs the model exactly. -/
theorem c5_roundtrip_amended (m : DesignModel) (now : String)
    (h : validModelB m = true) :
    fromTransport (renameTop (toTransport m now)) = Except.ok m := by
  simp only [validModelB, Bool.and_eq_true, decide_eq_true_eq,
    List.all_eq_true] at h
  obtain ⟨⟨⟨h1, h2⟩, h3⟩, h4⟩ := h
  have hP : PART_KEYS.mapM (parseRegionEntry
      (Json.obj (m.parts.map (fun p => (p.1, partValToJson p.2)))))
      = Except.ok m.parts := by
    rw [← h1]
    apply mapM_region_entries
    · rw [h1]; decide
    · intro k _
      simp [Json.getField, objGet_map_snd]
    · exact h2
  have hT : TARGET_KEYS.mapM (parseTargetEntry
      (Json.obj (m.targets.map (fun p => (p.1, targetToJson p.2)))))
      = Except.ok m.targets := by
    rw [← h3]
    apply mapM_target_entries
    · rw [h3]; decide
    · intro k _
      simp [Json.getField, objGet_map_snd]
    · exact h4
  show (do
      let parts ← PART_KEYS.mapM (parseRegionEntry
        (Json.obj (m.parts.map (fun p => (p.1, partValToJson p.2)))))
      let targets ← TARGET_KEYS.mapM (parseTargetEntry
        (Json.obj (m.targets.map (fun p => (p.1, targetToJson p.2)))))
      pure { parts := parts, targets := targets })
    = Except.ok m
  rw [hP, hT]
  rfl

/-- A valid Design Model with every Embroidery Target set, for the
round-trip witness. -/
def c5AllSetModel : DesignModel :=
  { parts := initialParts
    targets :=
      [("wriststrap",
        some { text := "A", font := "Arial", size := some 30, color := "#fff" }),
       ("thumb",
        some { text := "B", font := "Roboto", size := some 20, color := "#000" }),
       ("patch",
        some { text := "LUX", font := "Montserrat", size := some 40,
               color := "#ff0" })] }

/-- C5 amended, witnessed at a concrete all-targets-set valid model. -/
theorem c5_roundtrip_amended_witness :
    validModelB c5AllSetModel = true
    ∧ fromTransport
        (renameTop (toTransport c5AllSetModel "2024-01-01T00:00:00.000Z"))
        = Except.ok c5AllSetModel :=
  ⟨by decide,
   c5_roundtrip_amended c5AllSetModel "2024-01-01T00:00:00.000Z" (by decide)⟩

/-- C6: `resetDesign` restores every static Region's appearance to the
documented default (material full_grain, color "#b06b4a", pattern none)
and unsets every Embroidery Target, from any state, and it is idempotent
— a second call yields the identical store state. -/
theorem c6_reset_defaults (s : StoreState) :
    (resetDesign s).parts = PART_KEYS.map (fun k => (k, DEFAULT_PART_SETTINGS))
    ∧ DEFAULT_PART_SETTINGS
        = { material := some "full_grain", color := some "#b06b4a",
            pattern := some "none" }
    ∧ (resetDesign s).targets
        = [("wriststrap", none), ("thumb", none), ("patch", none)]
    ∧ resetDesign (resetDesign s) = resetDesign s :=
  ⟨rfl, rfl, rfl, rfl⟩

/-- C7: the material-to-shading mapping is a pure function of the
material kind — suede ↦ roughness 0.9 / metalness 0.0, full_grain ↦
0.5 / 0.0, anything else (synthetic, the default) ↦ 0.6 / 0.05 — and the
region binder pass applies exactly this mapping (together with the base
color) to every present mesh of every static region. -/
theorem c7_material_shading :
    (materialShading (some "suede") = (9/10, 0)
      ∧ materialShading (some "full_grain") = (1/2, 0)
      ∧ (∀ m : Option String, m ≠ some "suede" → m ≠ some "full_grain" →
          materialShading m = (3/5, 1/20)))
    ∧ (∀ (parts : ObjMap PartVal) (rs : RenderState) (k : String) (mat : MatState),
        k ∈ PART_KEYS → objGet rs.meshes k = some mat →
        objGet (regionBinderPass parts rs).meshes k
          = some (shadedMat parts k mat)) := by
  refine ⟨⟨rfl, rfl, ?_⟩, ?_⟩
  · intro m hm1 hm2
    unfold materialShading
    rw [if_neg hm1, if_neg hm2]
  · intro parts rs k mat hk hmesh
    unfold regionBinderPass
    exact regionFold_mem parts PART_KEYS rs k mat (by decide) hk hmesh

/-- A one-region parts mapping with suede material, for the C7 witness. -/
def c7SuedeParts : ObjMap PartVal :=
  [("glove_palm",
    { material := some "suede", color := some "#000000", pattern := some "none" })]

/-- C7 witnessed: the default branch at "synthetic", and the binder pass
applied to a suede palm on the initial render state. -/
theorem c7_material_shading_witness :
    materialShading (some "synthetic") = (3/5, 1/20)
    ∧ objGet (regionBinderPass c7SuedeParts rs0).meshes "glove_palm"
        = some (shadedMat c7SuedeParts "glove_palm" initMat) :=
  ⟨c7_material_shading.1.2.2 (some "synthetic") (by decide) (by decide),
   c7_material_shading.2 c7SuedeParts rs0 "glove_palm" initMat (by decide)
     (by decide)⟩

/-- Field `f` of region `k` inside an exported tree, as a string. -/
def exportedPartField (j : Json) (k f : String) : Option String :=
  jStr ((((j.getField "parts").bind (fun pj => pj.getField k)).bind
    (fun vj => vj.getField f)))

/-- C8: `setRegionColor(r, c)` on a present region replaces only that
region's color — material and pattern stay, every other region's entry is
untouched, the embroidery targets are untouched — and in particular the
§8 scenario holds: from the default model,
`setRegionColor("glove_palm", "#112233")` then `exportDesign()` yields a
tree whose glove_palm color is "#112233" with its material/pattern still
default, and every other region fully default. -/
theorem c8_setRegionColor_frame :
    (∀ (r c : String) (s : StoreState) (v : PartVal),
        objGet s.parts r = some v →
        objGet (setPartColor r c s).parts r = some { v with color := some c }
        ∧ (∀ k, k ≠ r → objGet (setPartColor r c s).parts k = objGet s.parts k)
        ∧ (setPartColor r c s).targets = s.targets)
    ∧ (∀ k, k ∈ PART_KEYS → k ≠ "glove_palm" →
        exportedPartField
          (getDesignJSON (setPartColor "glove_palm" "#112233" initialState)
            "2024-01-01T00:00:00.000Z").2 k "color" = some "#b06b4a"
        ∧ exportedPartField
            (getDesignJSON (setPartColor "glove_palm" "#112233" initialState)
              "2024-01-01T00:00:00.000Z").2 k "material" = some "full_grain"
        ∧ exportedPartField
            (getDesignJSON (setPartColor "glove_palm" "#112233" initialState)
              "2024-01-01T00:00:00.000Z").2 k "pattern" = some "none")
    ∧ exportedPartField
        (getDesignJSON (setPartColor "glove_palm" "#112233" initialState)
          "2024-01-01T00:00:00.000Z").2 "glove_palm" "color" = some "#112233"
    ∧ exportedPartField
        (getDesignJSON (setPartColor "glove_palm" "#112233" initialState)
          "2024-01-01T00:00:00.000Z").2 "glove_palm" "material"
        = some "full_grain"
    ∧ exportedPartField
        (getDesignJSON (setPartColor "glove_palm" "#112233" initialState)
          "2024-01-01T00:00:00.000Z").2 "glove_palm" "pattern" = some "none" := by
  refine ⟨?_, by decide, by decide, by decide, by decide⟩
  intro r c s v h
  refine ⟨?_, ?_, rfl⟩
  · simp [setPartColor, h, objGet_objSet_self]
  · intro k hk
    simp [setPartColor, objGet_objSet_ne _ _ _ _ hk]

/-- C8 witnessed at the §8 scenario inputs: palm color replacement on the
default model, with material and pattern preserved and the web region
unchanged. -/
theorem c8_setRegionColor_frame_witness :
    objGet (setPartColor "glove_palm" "#112233" initialState).parts "glove_palm"
      = some { DEFAULT_PART_SETTINGS with color := some "#112233" }
    ∧ (∀ k, k ≠ "glove_palm" →
        objGet (setPartColor "glove_palm" "#112233" initialState).parts k
          = objGet initialState.parts k)
    ∧ (setPartColor "glove_palm" "#112233" initialState).targets
        = initialState.targets :=
  c8_setRegionColor_frame.1 "glove_palm" "#112233" initialState
    DEFAULT_PART_SETTINGS (by decide)

/-- C9: texture synthesis is dimension-deterministic.  Two invocations of
the embroidery binder's set-path with the identical payload
(text, font, size, color) — in any two render states, i.e. at any two
times — append texture resources with the same width and the same height,
namely `embSetDims measure spec`, which depends only on the host's
measurement oracle and the payload. -/
theorem c9_dims_deterministic (measure : CanvasFont → String → ℚ) (t : String)
    (sp : EmbSpec) (rs rs' : RenderState) (mk : String) (mat mat' : MatState)
    (h1 : objGet EMB_MAP t = some mk)
    (h2 : objGet rs.meshes mk = some mat)
    (h2' : objGet rs'.meshes mk = some mat') :
    (embStep measure rs t (some sp)).textures
      = rs.textures
        ++ [(rs.nextTex, (embSetDims measure sp).1, (embSetDims measure sp).2)]
    ∧ (embStep measure rs' t (some sp)).textures
      = rs'.textures
        ++ [(rs'.nextTex, (embSetDims measure sp).1, (embSetDims measure sp).2)] :=
  ⟨embStep_set_textures measure rs t sp mk mat h1 h2,
   embStep_set_textures measure rs' t sp mk mat' h1 h2'⟩

/-- The §8 determinism payload: text "A", font "Arial", size 48. -/
def c9Spec : EmbSpec :=
  { text := "A", font := "Arial", size := some 48, color := "#fff" }

/-- A second render state (different allocation counter) for the two-run
witness. -/
def c9Rs2 : RenderState := { rs0 with nextTex := 7 }

/-- C9 witnessed: the same payload applied in two different render states
yields textures of identical dimensions. -/
theorem c9_dims_deterministic_witness :
    (embStep constMeasure100 rs0 "patch" (some c9Spec)).textures
      = rs0.textures
        ++ [(rs0.nextTex, (embSetDims constMeasure100 c9Spec).1,
             (embSetDims constMeasure100 c9Spec).2)]
    ∧ (embStep constMeasure100 c9Rs2 "patch" (some c9Spec)).textures
      = c9Rs2.textures
        ++ [(c9Rs2.nextTex, (embSetDims constMeasure100 c9Spec).1,
             (embSetDims constMeasure100 c9Spec).2)] :=
  c9_dims_deterministic constMeasure100 "patch" c9Spec rs0 c9Rs2
    "glove_logo_patch" initMat initMat (by decide) (by decide) (by decide)

/-- C10: the embroidery binder renders at the effective font pixel size
`max(24, size)`, with size treated as 48 when it is 0 or absent; hence
any two payloads differing only in sizes within (0, 24] synthesize
bitmaps of identical dimensions, the effective size never drops below 24,
and a requested size below 24 is never used as-is. -/
theorem c10_min_font_size :
    (∀ (measure : CanvasFont → String → ℚ) (t f c : String) (s1 s2 : ℚ),
        0 < s1 → s1 ≤ 24 → 0 < s2 → s2 ≤ 24 →
        embSetDims measure { text := t, font := f, size := some s1, color := c }
          = embSetDims measure { text := t, font := f, size := some s2, color := c })
    ∧ effFontPx none = 48
    ∧ effFontPx (some 0) = 48
    ∧ (∀ q : ℚ, q ≠ 0 → effFontPx (some q) = max 24 q)
    ∧ (∀ sz : Option ℚ, 24 ≤ effFontPx sz) := by
  have hcl : ∀ q : ℚ, 0 < q → q ≤ 24 → effFontPx (some q) = 24 := by
    intro q hq1 hq2
    simp only [effFontPx]
    rw [if_neg (ne_of_gt hq1)]
    exact max_eq_left hq2
  refine ⟨?_, ?_, ?_, ?_, ?_⟩
  · intro measure t f c s1 s2 h1 h2 h3 h4
    simp only [embSetDims]
    rw [hcl s1 h1 h2, hcl s2 h3 h4]
  · simp only [effFontPx]
    exact max_eq_right (by norm_num)
  · simp only [effFontPx, if_true]
    exact max_eq_right (by norm_num)
  · intro q hq
    simp only [effFontPx]
    rw [if_neg hq]
  · intro sz
    cases sz with
    | none => simp only [effFontPx]; exact le_max_left _ _
    | some q => simp only [effFontPx]; exact le_max_left _ _

/-- C10 witnessed at sizes 10 and 24 (both in (0, 24]) with the same
text/font/color: identical synthesized dimensions. -/
theorem c10_min_font_size_witness :
    (0:ℚ) < 10 ∧ (10:ℚ) ≤ 24 ∧ (0:ℚ) < 24 ∧ (24:ℚ) ≤ 24
    ∧ embSetDims constMeasure100
        { text := "A", font := "Arial", size := some 10, color := "#fff" }
      = embSetDims constMeasure100
        { text := "A", font := "Arial", size := some 24, color := "#fff" } :=
  ⟨by decide, by decide, by decide, by decide,
   c10_min_font_size.1 constMeasure100 "A" "Arial" "#fff" 10 24 (by decide)
     (by decide) (by decide) (by decide)⟩

end Glove
